import Mathlib

/-!
Verification of the underwriting financial engine of the Aequitas MVP
(`src/frontend/src/pages/MarketAnalysis.tsx`): the PMT amortization helper,
the NPV function, the Newton-Raphson IRR solver, and the `metrics` useMemo
block that derives a `DealMetrics` record from the deal parameters.

The JavaScript numbers are modelled as exact rationals (`ℚ`).  One point of
divergence matters and is flagged where it occurs: in `ℚ`, `x / 0 = 0`,
while in JavaScript `x / 0` is `±Infinity` (and `0 / 0` is `NaN`).  The
source performs two unguarded divisions whose divisor can be zero (the
`exitCapRate` division and the Newton update); for those, dedicated
predicates record that the computation reaches a division whose divisor is
zero, which is the exact-arithmetic counterpart of "Infinity/NaN is
produced".
-/

namespace Aequitas

/-- Input record of the `metrics` useMemo in the Underwriting component:
one field per piece of `useState` state that the calculation reads
(`totalUnits`, `purchasePrice`, `constructionCost`, `closingCosts`,
`avgMonthlyRent`, `operatingExpenseRatio`, `interestRate`, `loanTermYears`,
`ltv`, `exitCapRate`, `holdingPeriod`).  `loanTermYears` and
`holdingPeriod` are loop/term counts and are modelled as naturals; the
spec requires them to be positive integers. -/
structure DealParameters where
  totalUnits : ℚ
  purchasePrice : ℚ
  constructionCost : ℚ
  closingCosts : ℚ
  avgMonthlyRent : ℚ
  operatingExpenseRatio : ℚ
  interestRate : ℚ
  loanTermYears : ℕ
  ltv : ℚ
  exitCapRate : ℚ
  holdingPeriod : ℕ

/-- Source: `calculatePMT(rate, nper, pv)`.  Zero rate is special-cased to
straight-line `-(pv / nper)`; otherwise the standard annuity formula
`-((rate * pv * pvif) / (pvif - 1))` with `pvif = (1 + rate)^nper`. -/
def calculatePMT (rate : ℚ) (nper : ℕ) (pv : ℚ) : ℚ :=
  if rate = 0 then -(pv / (nper : ℚ))
  else
    let pvif := (1 + rate) ^ nper;
    -((rate * pv * pvif) / (pvif - 1))

/-- Source: the `reduce` inside `npv`, carrying the element index `i`:
`acc + val / (1 + rate)^i`. -/
def npvAux (rate : ℚ) : List ℚ → ℕ → ℚ
  | [], _ => 0
  | v :: vs, i => v / (1 + rate) ^ i + npvAux rate vs (i + 1)

/-- Source: `npv(rate, values) = values.reduce((acc, val, i) => acc + val / (1+rate)^i, 0)`. -/
def npv (rate : ℚ) (values : List ℚ) : ℚ := npvAux rate values 0

/-- Source: the `reduce` computing `npvDerivative` inside `calculateIRR`,
carrying the element index `j`: `acc - (j * val) / (1 + rate)^(j+1)`. -/
def npvDerivAux (rate : ℚ) : List ℚ → ℕ → ℚ
  | [], _ => 0
  | v :: vs, j => -((j : ℚ) * v / (1 + rate) ^ (j + 1)) + npvDerivAux rate vs (j + 1)

/-- Derivative of the NPV with respect to the rate, as the source computes it. -/
def npvDeriv (rate : ℚ) (values : List ℚ) : ℚ := npvDerivAux rate values 0

/-- Source constant `precision = 0.00001` of `calculateIRR`. -/
def irrPrecision : ℚ := 0.00001

/-- Source constant `maxIter = 1000` of `calculateIRR`. -/
def irrMaxIter : ℕ := 1000

/-- Source default `guess = 0.1` of `calculateIRR`. -/
def irrGuess : ℚ := 0.1

/-- Source: the `for (let i = 0; i < maxIter; i++)` loop of `calculateIRR`,
with the remaining iteration count as fuel.  Each pass: if `|npv| <
precision` return `rate`; otherwise form the Newton update `newRate = rate
- npv / npvDerivative`; if `|newRate - rate| < precision` return `newRate`;
otherwise continue.  When the fuel runs out the last `rate` is returned.
NOTE: the source performs the division `npvValue / npvDerivative` with no
guard on `npvDerivative = 0`; in `ℚ` that division yields `0` (so the loop
happens to return the current `rate`), while in JavaScript it yields
`±Infinity`/`NaN`.  `irrLoopZeroDerivHit` below records when this unguarded
division-by-zero is actually reached. -/
def irrLoop (values : List ℚ) : ℕ → ℚ → ℚ
  | 0, rate => rate
  | n + 1, rate =>
    let npvValue := npv rate values
    if |npvValue| < irrPrecision then rate
    else
      let npvDerivative := npvDeriv rate values
      let newRate := rate - npvValue / npvDerivative
      if |newRate - rate| < irrPrecision then newRate
      else irrLoop values n newRate

/-- Source: `calculateIRR(values, guess = 0.1)`. -/
def calculateIRR (values : List ℚ) (guess : ℚ := irrGuess) : ℚ :=
  irrLoop values irrMaxIter guess

/-- True exactly when the Newton iteration of `calculateIRR`, run from
`rate` with the given fuel, reaches the update step with
`npvDerivative = 0` while `|npvValue| ≥ precision`: at that point the
JavaScript source divides by zero (producing `±Infinity`) with no guard. -/
def irrLoopZeroDerivHit (values : List ℚ) : ℕ → ℚ → Bool
  | 0, _ => false
  | n + 1, rate =>
    let npvValue := npv rate values
    if |npvValue| < irrPrecision then false
    else
      let npvDerivative := npvDeriv rate values
      if npvDerivative = 0 then true
      else
        let newRate := rate - npvValue / npvDerivative
        if |newRate - rate| < irrPrecision then false
        else irrLoopZeroDerivHit values n newRate

/-- True exactly when the Newton iteration terminates through its
NPV-convergence test `|npvValue| < precision` (as opposed to the step-size
test or the iteration cap). -/
def irrLoopNpvExit (values : List ℚ) : ℕ → ℚ → Bool
  | 0, _ => false
  | n + 1, rate =>
    let npvValue := npv rate values
    if |npvValue| < irrPrecision then true
    else
      let npvDerivative := npvDeriv rate values
      let newRate := rate - npvValue / npvDerivative
      if |newRate - rate| < irrPrecision then false
      else irrLoopNpvExit values n newRate

/-- Source: `totalProjectCost = purchasePrice + constructionCost + closingCosts`. -/
def totalProjectCost (p : DealParameters) : ℚ :=
  p.purchasePrice + p.constructionCost + p.closingCosts

/-- Source: `loanAmount = totalProjectCost * (ltv / 100)`. -/
def loanAmount (p : DealParameters) : ℚ := totalProjectCost p * (p.ltv / 100)

/-- Source: `equityRequired = totalProjectCost - loanAmount`. -/
def equityRequired (p : DealParameters) : ℚ := totalProjectCost p - loanAmount p

/-- Source: `annualDebtService = calculatePMT(interestRate / 12, loanTermYears * 12, loanAmount) * 12 * -1`. -/
def annualDebtService (p : DealParameters) : ℚ :=
  calculatePMT (p.interestRate / 12) (p.loanTermYears * 12) (loanAmount p) * 12 * (-1)

/-- Source: `grossPotentialRent = totalUnits * avgMonthlyRent * 12`. -/
def grossPotentialRent (p : DealParameters) : ℚ :=
  p.totalUnits * p.avgMonthlyRent * 12

/-- Source: `vacancyLoss = grossPotentialRent * 0.05`. -/
def vacancyLoss (p : DealParameters) : ℚ := grossPotentialRent p * 0.05

/-- Source: `effectiveGrossIncome = grossPotentialRent - vacancyLoss`. -/
def effectiveGrossIncome (p : DealParameters) : ℚ :=
  grossPotentialRent p - vacancyLoss p

/-- Source: `operatingExpenses = effectiveGrossIncome * operatingExpenseRatio`. -/
def operatingExpenses (p : DealParameters) : ℚ :=
  effectiveGrossIncome p * p.operatingExpenseRatio

/-- Source: `netOperatingIncome = effectiveGrossIncome - operatingExpenses`. -/
def netOperatingIncome (p : DealParameters) : ℚ :=
  effectiveGrossIncome p - operatingExpenses p

/-- Source: the `for (let year = 1; year <= holdingPeriod; year++)` loop.
State passing: `later` is whether a previous iteration exists (so the
`year > 1` test fires and `projectedNOI` is first multiplied by `1.02`),
`projectedNOI` is the mutable accumulator, and the fuel is the number of
years left.  Returns the list of pushed `cashFlow` values together with the
final value of `projectedNOI` (used afterwards for `exitNOI`). -/
def cashFlowLoop (ads : ℚ) : Bool → ℚ → ℕ → List ℚ × ℚ
  | _, projectedNOI, 0 => ([], projectedNOI)
  | later, projectedNOI, n + 1 =>
    let grown := if later then projectedNOI * 1.02 else projectedNOI
    let cashFlow := grown - ads
    let rest := cashFlowLoop ads true grown n
    (cashFlow :: rest.1, rest.2)

/-- Source: the `annualCashFlows` array pushed by the projection loop
(operating cash flows only; the source never adds `saleProceeds` to it). -/
def annualCashFlows (p : DealParameters) : List ℚ :=
  (cashFlowLoop (annualDebtService p) false (netOperatingIncome p) p.holdingPeriod).1

/-- Value of the mutable `projectedNOI` after the projection loop finishes. -/
def finalProjectedNOI (p : DealParameters) : ℚ :=
  (cashFlowLoop (annualDebtService p) false (netOperatingIncome p) p.holdingPeriod).2

/-- Source: `exitNOI = projectedNOI * 1.02` (after the loop). -/
def exitNOI (p : DealParameters) : ℚ := finalProjectedNOI p * 1.02

/-- Source: `salePrice = exitNOI / exitCapRate`.  Unguarded: the source
divides even when `exitCapRate = 0` (JavaScript: `Infinity`; here: `0`). -/
def salePrice (p : DealParameters) : ℚ := exitNOI p / p.exitCapRate

/-- Source: `loanBalance = loanAmount` (no amortization paydown modelled). -/
def loanBalance (p : DealParameters) : ℚ := loanAmount p

/-- Source: `saleProceeds = salePrice - loanBalance`. -/
def saleProceeds (p : DealParameters) : ℚ := salePrice p - loanBalance p

/-- Source: `irrStream[irrStream.length - 1] += x` — add `x` to the last
element of a list, leaving an empty list unchanged. -/
def addToLast (x : ℚ) : List ℚ → List ℚ
  | [] => []
  | [a] => [a + x]
  | a :: b :: rest => a :: addToLast x (b :: rest)

/-- Source: the `irrStream` array: `[-equityRequired]` followed by the
pushed cash flows, with `saleProceeds` then added in place to its last
element. -/
def irrStream (p : DealParameters) : List ℚ :=
  addToLast (saleProceeds p) (-equityRequired p :: annualCashFlows p)

/-- Source: `irr = calculateIRR(irrStream) * 100`. -/
def irr (p : DealParameters) : ℚ := calculateIRR (irrStream p) * 100

/-- Source: `totalReturn = (irrStream.reduce((a, b) => a + b, 0) + equityRequired) / equityRequired`
(the equity multiple reported by the engine). -/
def totalReturn (p : DealParameters) : ℚ :=
  ((irrStream p).sum + equityRequired p) / equityRequired p

/-- Output record returned by the `metrics` useMemo, one field per property
of the returned object literal. -/
structure DealMetrics where
  totalProjectCost : ℚ
  loanAmount : ℚ
  equityRequired : ℚ
  netOperatingIncome : ℚ
  annualDebtService : ℚ
  annualCashFlows : List ℚ
  salePrice : ℚ
  irr : ℚ
  totalReturn : ℚ

/-- Source: the body of the `metrics` useMemo, assembled from the local
`const` bindings modelled above.  The source performs no input validation
and has no error channel: this is a total function into `DealMetrics`. -/
def computeDealMetrics (p : DealParameters) : DealMetrics :=
  { totalProjectCost := totalProjectCost p
    loanAmount := loanAmount p
    equityRequired := equityRequired p
    netOperatingIncome := netOperatingIncome p
    annualDebtService := annualDebtService p
    annualCashFlows := annualCashFlows p
    salePrice := salePrice p
    irr := irr p
    totalReturn := totalReturn p }

/-- Validity invariant on `DealParameters` as stated in the spec (§3):
nonnegative monetary inputs, `totalUnits` a positive integer,
`operatingExpenseRatio` a fraction in `[0, 1]`, `0 < ltv ≤ 100`,
nonnegative interest rate, positive loan term, positive `exitCapRate`, and
positive holding period. -/
def ValidParams (p : DealParameters) : Prop :=
  0 < p.totalUnits ∧ p.totalUnits.den = 1 ∧
  0 ≤ p.purchasePrice ∧ 0 ≤ p.constructionCost ∧ 0 ≤ p.closingCosts ∧
  0 ≤ p.avgMonthlyRent ∧
  0 ≤ p.operatingExpenseRatio ∧ p.operatingExpenseRatio ≤ 1 ∧
  0 < p.ltv ∧ p.ltv ≤ 100 ∧
  0 ≤ p.interestRate ∧
  0 < p.loanTermYears ∧
  0 < p.exitCapRate ∧
  0 < p.holdingPeriod

/-- Concrete scenario of spec §8.7 (the component's initial state):
200 units, 15M purchase, 25M construction, 3M closing, 1200 rent, 35%
expense ratio, 6.5% interest, 30-year term, 75 LTV, 6% exit cap, 10-year
hold. -/
def defaultParams : DealParameters :=
  { totalUnits := 200
    purchasePrice := 15000000
    constructionCost := 25000000
    closingCosts := 3000000
    avgMonthlyRent := 1200
    operatingExpenseRatio := 0.35
    interestRate := 0.065
    loanTermYears := 30
    ltv := 75
    exitCapRate := 0.06
    holdingPeriod := 10 }

/-- Small valid deal used for concrete counterexamples: 1 unit, 1/month
rent, 100 purchase price, zero expenses and interest, 50 LTV, exit cap 1,
2-year hold.  Zero interest keeps the exact rationals small. -/
def simpleParams : DealParameters :=
  { totalUnits := 1
    purchasePrice := 100
    constructionCost := 0
    closingCosts := 0
    avgMonthlyRent := 1
    operatingExpenseRatio := 0
    interestRate := 0
    loanTermYears := 1
    ltv := 50
    exitCapRate := 1
    holdingPeriod := 2 }

/-- The simple deal with `exitCapRate = 0`: the invalid input of spec §8.6. -/
def capZeroParams : DealParameters := { simpleParams with exitCapRate := 0 }

/-- Thoroughly invalid input: zero units, negative purchase price, negative
rent, zero loan term, zero LTV, zero exit cap rate, zero holding period. -/
def degenParams : DealParameters :=
  { totalUnits := 0
    purchasePrice := -1
    constructionCost := 0
    closingCosts := 0
    avgMonthlyRent := -5
    operatingExpenseRatio := 0.35
    interestRate := 0
    loanTermYears := 0
    ltv := 0
    exitCapRate := 0
    holdingPeriod := 0 }

/-- All-zero deal with a 1-year hold: its IRR stream is `[0, 0]`, so the
Newton iteration exits through the NPV test on its first pass. -/
def zeroParams : DealParameters :=
  { totalUnits := 0
    purchasePrice := 0
    constructionCost := 0
    closingCosts := 0
    avgMonthlyRent := 0
    operatingExpenseRatio := 0
    interestRate := 0
    loanTermYears := 1
    ltv := 0
    exitCapRate := 0
    holdingPeriod := 1 }

/-- Valid large deal engineered so that the Newton iteration exits through
the step-size test on its very first pass: the purchase price is the exact
rational solution of `npv(0.1) + npvDeriv(0.1) / 10^6 = 0` (both sides are
affine in the purchase price), which makes the first Newton step exactly
`10^-6` — below the `10^-5` step tolerance — while `|npv|` at the returned
rate is about `0.4` dollars. -/
def stepExitParams : DealParameters :=
  { totalUnits := 200000
    purchasePrice := 1630228830173183001961871360 / 26353986270176463
    constructionCost := 0
    closingCosts := 0
    avgMonthlyRent := 2000
    operatingExpenseRatio := 0.35
    interestRate := 0
    loanTermYears := 30
    ltv := 75
    exitCapRate := 0.06
    holdingPeriod := 10 }

/-! ## Helper lemmas -/

/-- One unfolding of the Newton loop at positive fuel. -/
lemma irrLoop_succ (values : List ℚ) (n : ℕ) (rate : ℚ) :
    irrLoop values (n + 1) rate =
      if |npv rate values| < irrPrecision then rate
      else if |(rate - npv rate values / npvDeriv rate values) - rate| < irrPrecision
        then rate - npv rate values / npvDeriv rate values
        else irrLoop values n (rate - npv rate values / npvDeriv rate values) := rfl

/-- One unfolding of the zero-derivative flag at positive fuel. -/
lemma irrLoopZeroDerivHit_succ (values : List ℚ) (n : ℕ) (rate : ℚ) :
    irrLoopZeroDerivHit values (n + 1) rate =
      if |npv rate values| < irrPrecision then false
      else if npvDeriv rate values = 0 then true
      else if |(rate - npv rate values / npvDeriv rate values) - rate| < irrPrecision then false
      else irrLoopZeroDerivHit values n (rate - npv rate values / npvDeriv rate values) := rfl

/-- One unfolding of the NPV-exit flag at positive fuel. -/
lemma irrLoopNpvExit_succ (values : List ℚ) (n : ℕ) (rate : ℚ) :
    irrLoopNpvExit values (n + 1) rate =
      if |npv rate values| < irrPrecision then true
      else if |(rate - npv rate values / npvDeriv rate values) - rate| < irrPrecision then false
      else irrLoopNpvExit values n (rate - npv rate values / npvDeriv rate values) := rfl

/-- When the Newton loop terminates through its NPV test, the NPV at the
returned rate is below the solver tolerance. -/
lemma irrLoopNpvExit_npv_lt (values : List ℚ) :
    ∀ (n : ℕ) (rate : ℚ), irrLoopNpvExit values n rate = true →
      |npv (irrLoop values n rate) values| < irrPrecision := by
  intro n
  induction n with
  | zero => intro rate h; simp [irrLoopNpvExit] at h
  | succ n ih =>
    intro rate h
    rw [irrLoopNpvExit_succ] at h
    rw [irrLoop_succ]
    by_cases h1 : |npv rate values| < irrPrecision
    · rw [if_pos h1]; exact h1
    · rw [if_neg h1] at h ⊢
      by_cases h2 : |(rate - npv rate values / npvDeriv rate values) - rate| < irrPrecision
      · rw [if_pos h2] at h; exact absurd h (by simp)
      · rw [if_neg h2] at h ⊢
        exact ih _ h

/-- The projection loop emits one cash flow per year of fuel. -/
lemma cashFlowLoop_length (ads : ℚ) (later : Bool) (noi : ℚ) (n : ℕ) :
    ((cashFlowLoop ads later noi n).1).length = n := by
  induction n generalizing later noi with
  | zero => rfl
  | succ n ih => simp [cashFlowLoop, ih]

/-- The `annualCashFlows` list always has `holdingPeriod` entries. -/
lemma annualCashFlows_length (p : DealParameters) :
    (annualCashFlows p).length = p.holdingPeriod :=
  cashFlowLoop_length _ _ _ _

/-- Entry `k` of the projection loop in its grown state (`later = true`):
the NOI has compounded `k + 1` times. -/
lemma cashFlowLoop_getD_true (ads noi : ℚ) (n k : ℕ) (hk : k < n) :
    ((cashFlowLoop ads true noi n).1).getD k 0 = noi * 1.02 ^ (k + 1) - ads := by
  induction n generalizing noi k with
  | zero => omega
  | succ n ih =>
    cases k with
    | zero => simp [cashFlowLoop]
    | succ k =>
      have hk' : k < n := by omega
      simp only [cashFlowLoop, if_true, List.getD_cons_succ]
      rw [ih (noi * 1.02) k hk']
      ring

/-- Entry `k` of the projection loop from its initial state (`later =
false`): year `k + 1` carries `k` compoundings of the 2% growth. -/
lemma cashFlowLoop_getD_false (ads noi : ℚ) (n k : ℕ) (hk : k < n) :
    ((cashFlowLoop ads false noi n).1).getD k 0 = noi * 1.02 ^ k - ads := by
  cases n with
  | zero => omega
  | succ n =>
    cases k with
    | zero => simp [cashFlowLoop]
    | succ k =>
      have hk' : k < n := by omega
      simp only [cashFlowLoop, Bool.false_eq_true, if_false, List.getD_cons_succ]
      rw [cashFlowLoop_getD_true ads noi n k hk']

/-- Closed form of the annual cash-flow entries. -/
lemma annualCashFlows_getD (p : DealParameters) (k : ℕ) (hk : k < p.holdingPeriod) :
    (annualCashFlows p).getD k 0 = netOperatingIncome p * 1.02 ^ k - annualDebtService p :=
  cashFlowLoop_getD_false _ _ _ _ hk

/-- Adding to the last element of a nonempty list adds to its sum. -/
lemma addToLast_sum (x a : ℚ) (l : List ℚ) :
    (addToLast x (a :: l)).sum = (a :: l).sum + x := by
  induction l generalizing a with
  | nil => simp [addToLast]
  | cons b t ih => simp only [addToLast, List.sum_cons, ih b]; ring

/-- Sum decomposition of the IRR stream: the equity outflow, the operating
cash flows, and the sale proceeds each enter exactly once. -/
lemma irrStream_sum (p : DealParameters) :
    (irrStream p).sum = -equityRequired p + (annualCashFlows p).sum + saleProceeds p := by
  rw [irrStream, addToLast_sum]
  simp only [List.sum_cons]

/-! ## Claims -/

/-- C1 (evaluation at the failing input): with `exitCapRate = 0` the engine
raises nothing — `computeDealMetrics` is a total function with no error
channel — and the computation runs to completion: it reaches the division
`salePrice = exitNOI / exitCapRate` with a positive numerator and a zero
divisor (`Infinity` in the JavaScript source) and still produces a full
metrics record including the whole cash-flow schedule.  No
`InvalidParameterError` exists anywhere in the source. -/
theorem exitCapRateZero_is_not_guarded :
    capZeroParams.exitCapRate = 0 ∧
    0 < exitNOI capZeroParams ∧
    (computeDealMetrics capZeroParams).salePrice
      = exitNOI capZeroParams / capZeroParams.exitCapRate ∧
    ((computeDealMetrics capZeroParams).annualCashFlows).length
      = capZeroParams.holdingPeriod := by
  refine ⟨rfl, ?_, rfl, annualCashFlows_length _⟩
  norm_num [exitNOI, finalProjectedNOI, cashFlowLoop, netOperatingIncome,
    effectiveGrossIncome, operatingExpenses, grossPotentialRent, vacancyLoss,
    capZeroParams, simpleParams]

/-- C2 (counterexample): at the valid input `simpleParams` the sum of the
returned `annualCashFlows` does NOT equal the sum of the per-year operating
cash flows plus `saleProceeds`: the source never adds `saleProceeds` to
`annualCashFlows` (only to `irrStream`), and here `saleProceeds ≠ 0`. -/
theorem annualCashFlows_sum_omits_saleProceeds :
    ValidParams simpleParams ∧
    ¬ (((computeDealMetrics simpleParams).annualCashFlows).sum
        = ((computeDealMetrics simpleParams).annualCashFlows).sum
          + saleProceeds simpleParams) := by
  constructor
  · refine ⟨?_, ?_, ?_, ?_, ?_, ?_, ?_, ?_, ?_, ?_, ?_, ?_, ?_, ?_⟩ <;>
      norm_num [ValidParams, simpleParams]
  · intro h
    have hs : saleProceeds simpleParams = 0 := by linarith
    revert hs
    norm_num [saleProceeds, salePrice, exitNOI, finalProjectedNOI, cashFlowLoop,
      netOperatingIncome, effectiveGrossIncome, operatingExpenses, grossPotentialRent,
      vacancyLoss, loanAmount, loanBalance, totalProjectCost, simpleParams]

/-- C2 (amended): `saleProceeds` is added exactly once to the last element
of the signed IRR stream `irrStream` (not to the returned
`annualCashFlows`, which holds the operating cash flows only), so the sum
of `irrStream` equals the year-0 equity outflow plus the sum of the
operating cash flows plus `saleProceeds` exactly once. -/
theorem irrStream_sum_has_saleProceeds_once (p : DealParameters) :
    (irrStream p).sum
      = -equityRequired p + ((computeDealMetrics p).annualCashFlows).sum
        + saleProceeds p :=
  irrStream_sum p

/-- C3 (counterexample): at the valid input `simpleParams` the returned
equity multiple (`totalReturn`) is NOT `(sum of the year-1..N cash flows
including sale proceeds + equityRequired) / equityRequired`: the code
computes the sum over the whole signed stream (whose first element is
`-equityRequired`), so the claimed formula overshoots it by exactly 1. -/
theorem totalReturn_formula_counterexample :
    ValidParams simpleParams ∧
    ¬ ((computeDealMetrics simpleParams).totalReturn
        = ((((computeDealMetrics simpleParams).annualCashFlows).sum
            + saleProceeds simpleParams) + equityRequired simpleParams)
          / equityRequired simpleParams) := by
  constructor
  · refine ⟨?_, ?_, ?_, ?_, ?_, ?_, ?_, ?_, ?_, ?_, ?_, ?_, ?_, ?_⟩ <;>
      norm_num [ValidParams, simpleParams]
  · norm_num [computeDealMetrics, totalReturn, irrStream, addToLast, annualCashFlows,
      cashFlowLoop, saleProceeds, salePrice, exitNOI, finalProjectedNOI,
      netOperatingIncome, effectiveGrossIncome, operatingExpenses, grossPotentialRent,
      vacancyLoss, annualDebtService, calculatePMT, loanAmount, loanBalance,
      equityRequired, totalProjectCost, simpleParams]

/-- C3 (amended): the returned equity multiple equals the sum of the cash
flows for years 1..N including sale proceeds, divided by `equityRequired`
(equivalently, the sum over the whole signed stream — year-0 outflow
included — plus `equityRequired`, divided by `equityRequired`). -/
theorem totalReturn_eq_distributions_over_equity (p : DealParameters) :
    (computeDealMetrics p).totalReturn
      = (((computeDealMetrics p).annualCashFlows).sum + saleProceeds p)
        / equityRequired p := by
  show totalReturn p = ((annualCashFlows p).sum + saleProceeds p) / equityRequired p
  rw [totalReturn, irrStream_sum]
  congr 1
  ring

/-- C4 (evaluation at the failing input): on the stream `[1, 0]` the Newton
iteration reaches its update step with the NPV derivative exactly zero
while `|NPV| = 1` is far above the convergence tolerance, and the source
performs the division `npvValue / npvDerivative` with no zero check (in
JavaScript the update yields `-Infinity` and `calculateIRR` returns
`-Infinity` instead of short-circuiting to the current estimate). -/
theorem newton_zero_derivative_division_reached :
    ¬ (|npv irrGuess [1, 0]| < irrPrecision) ∧
    npvDeriv irrGuess [1, 0] = 0 ∧
    irrLoopZeroDerivHit [1, 0] irrMaxIter irrGuess = true := by
  refine ⟨?_, ?_, ?_⟩
  · norm_num [npv, npvAux, irrPrecision, irrGuess, abs_lt]
  · norm_num [npvDeriv, npvDerivAux, irrGuess]
  · rw [show irrMaxIter = 999 + 1 from rfl, irrLoopZeroDerivHit_succ]
    norm_num [npv, npvAux, npvDeriv, npvDerivAux, irrPrecision, irrGuess, abs_lt]

/-- C5 (counterexample): `stepExitParams` is a valid deal on which the
Newton iteration terminates through the step-size test on its first pass
(the step is exactly `10^-6 < 10^-5`), and the NPV of the IRR stream at the
returned rate `irr / 100` is about `0.4` dollars — far outside the claimed
`10^-3` tolerance. -/
theorem irr_npv_residual_exceeds_tolerance :
    ValidParams stepExitParams ∧
    1 / 1000 < |npv ((computeDealMetrics stepExitParams).irr / 100)
        (irrStream stepExitParams)| := by
  constructor
  · refine ⟨?_, ?_, ?_, ?_, ?_, ?_, ?_, ?_, ?_, ?_, ?_, ?_, ?_, ?_⟩ <;>
      norm_num [ValidParams, stepExitParams]
  · have hirr : (computeDealMetrics stepExitParams).irr / 100 = 100001 / 1000000 := by
      have hcalc : calculateIRR (irrStream stepExitParams) = 100001 / 1000000 := by
        have h : calculateIRR (irrStream stepExitParams)
            = irrLoop (irrStream stepExitParams) (999 + 1) irrGuess := rfl
        rw [h, irrLoop_succ]
        norm_num [irrStream, addToLast, annualCashFlows, cashFlowLoop, saleProceeds,
          salePrice, exitNOI, finalProjectedNOI, netOperatingIncome,
          effectiveGrossIncome, operatingExpenses, grossPotentialRent, vacancyLoss,
          annualDebtService, calculatePMT, loanAmount, loanBalance, equityRequired,
          totalProjectCost, stepExitParams, npv, npvAux, npvDeriv, npvDerivAux,
          irrPrecision, irrGuess, abs_lt]
      show irr stepExitParams / 100 = _
      rw [irr, hcalc]
      norm_num
    rw [hirr, lt_abs]
    left
    norm_num [irrStream, addToLast, annualCashFlows, cashFlowLoop, saleProceeds,
      salePrice, exitNOI, finalProjectedNOI, netOperatingIncome, effectiveGrossIncome,
      operatingExpenses, grossPotentialRent, vacancyLoss, annualDebtService,
      calculatePMT, loanAmount, loanBalance, equityRequired, totalProjectCost,
      stepExitParams, npv, npvAux]

/-- C5 (amended): whenever the Newton iteration terminates through its own
NPV-convergence test, the NPV of the IRR stream discounted at the returned
`irr / 100` is below the solver tolerance `10^-5` and hence within `10^-3`
of zero; termination through the step-size test or the iteration cap
carries no such guarantee. -/
theorem irr_npv_small_on_npv_exit (p : DealParameters)
    (h : irrLoopNpvExit (irrStream p) irrMaxIter irrGuess = true) :
    |npv ((computeDealMetrics p).irr / 100) (irrStream p)| < 1 / 1000 := by
  have h100 : (computeDealMetrics p).irr / 100
      = irrLoop (irrStream p) irrMaxIter irrGuess := by
    show irr p / 100 = _
    rw [irr, calculateIRR]
    ring
  rw [h100]
  have := irrLoopNpvExit_npv_lt (irrStream p) irrMaxIter irrGuess h
  calc |npv (irrLoop (irrStream p) irrMaxIter irrGuess) (irrStream p)|
      < irrPrecision := this
    _ ≤ 1 / 1000 := by norm_num [irrPrecision]

/-- Witness for C5 (amended) at `zeroParams`, whose IRR stream is `[0, 0]`:
the iteration exits through the NPV test immediately and the NPV at the
returned rate is within tolerance. -/
theorem irr_npv_small_on_npv_exit_witness :
    irrLoopNpvExit (irrStream zeroParams) irrMaxIter irrGuess = true ∧
    |npv ((computeDealMetrics zeroParams).irr / 100) (irrStream zeroParams)| < 1 / 1000 := by
  have hz : irrLoopNpvExit (irrStream zeroParams) irrMaxIter irrGuess = true := by
    rw [show irrMaxIter = 999 + 1 from rfl, irrLoopNpvExit_succ]
    norm_num [irrStream, addToLast, annualCashFlows, cashFlowLoop, saleProceeds,
      salePrice, exitNOI, finalProjectedNOI, netOperatingIncome, effectiveGrossIncome,
      operatingExpenses, grossPotentialRent, vacancyLoss, annualDebtService,
      calculatePMT, loanAmount, loanBalance, equityRequired, totalProjectCost,
      zeroParams, npv, npvAux, irrPrecision, irrGuess, abs_lt]
  exact ⟨hz, irr_npv_small_on_npv_exit zeroParams hz⟩

/-- C6: the returned `annualCashFlows` has exactly `holdingPeriod` entries,
in chronological order, and entry `k` (year `k + 1`) equals
`netOperatingIncome * 1.02 ^ k - annualDebtService`: year 1 is unescalated,
the NOI compounds by a fixed 2% from year 2 on, and debt service is flat. -/
theorem annualCashFlows_schedule (p : DealParameters) :
    ((computeDealMetrics p).annualCashFlows).length = p.holdingPeriod ∧
    ∀ k, k < p.holdingPeriod →
      ((computeDealMetrics p).annualCashFlows).getD k 0
        = netOperatingIncome p * 1.02 ^ k - annualDebtService p :=
  ⟨annualCashFlows_length p, fun k hk => annualCashFlows_getD p k hk⟩

/-- Witness for C6 at the spec §8.7 scenario, year 1. -/
theorem annualCashFlows_schedule_witness :
    0 < defaultParams.holdingPeriod ∧
    ((computeDealMetrics defaultParams).annualCashFlows).getD 0 0
      = netOperatingIncome defaultParams * 1.02 ^ 0 - annualDebtService defaultParams :=
  ⟨by norm_num [defaultParams],
    (annualCashFlows_schedule defaultParams).2 0 (by norm_num [defaultParams])⟩

/-- C7: with a zero interest rate the debt service degenerates to the
straight-line form `loanAmount / (loanTermYears * 12) * 12`, with the
division-by-zero branch of the payment formula never taken. -/
theorem zero_interest_debt_service (p : DealParameters)
    (h : p.interestRate = 0) :
    (computeDealMetrics p).annualDebtService
      = loanAmount p / ((p.loanTermYears : ℚ) * 12) * 12 := by
  show annualDebtService p = _
  rw [annualDebtService, calculatePMT, h]
  have hc : ((p.loanTermYears * 12 : ℕ) : ℚ) = (p.loanTermYears : ℚ) * 12 := by
    push_cast
    ring
  rw [if_pos (by norm_num : (0 : ℚ) / 12 = 0), hc]
  ring

/-- Witness for C7 at the spec scenario with the interest rate set to 0. -/
theorem zero_interest_debt_service_witness :
    ({ defaultParams with interestRate := 0 } : DealParameters).interestRate = 0 ∧
    (computeDealMetrics { defaultParams with interestRate := 0 }).annualDebtService
      = loanAmount { defaultParams with interestRate := 0 }
        / ((({ defaultParams with interestRate := 0 } : DealParameters).loanTermYears : ℚ)
            * 12) * 12 :=
  ⟨rfl, zero_interest_debt_service { defaultParams with interestRate := 0 } rfl⟩

/-- C8: the capital stack identity `loanAmount + equityRequired =
totalProjectCost` holds exactly (in exact rational arithmetic) for every
input. -/
theorem capital_stack_identity (p : DealParameters) :
    (computeDealMetrics p).loanAmount + (computeDealMetrics p).equityRequired
      = (computeDealMetrics p).totalProjectCost := by
  show loanAmount p + equityRequired p = totalProjectCost p
  rw [equityRequired]
  ring

/-- C9 (counterexample): two valid deals differing only in
`avgMonthlyRent` (100 vs 200), both with `operatingExpenseRatio = 1` — a
value the spec admits ("fraction in [0,1]") — have equal (zero) year-1 NOI,
so the higher rent does NOT strictly increase `netOperatingIncomeYear1`. -/
theorem noi_not_strict_at_full_expense_share :
    ValidParams { simpleParams with operatingExpenseRatio := 1, avgMonthlyRent := 100 } ∧
    ValidParams { simpleParams with operatingExpenseRatio := 1, avgMonthlyRent := 200 } ∧
    ({ simpleParams with operatingExpenseRatio := 1, avgMonthlyRent := 100 }
        : DealParameters).avgMonthlyRent
      < ({ simpleParams with operatingExpenseRatio := 1, avgMonthlyRent := 200 }
        : DealParameters).avgMonthlyRent ∧
    ¬ ((computeDealMetrics
          { simpleParams with operatingExpenseRatio := 1, avgMonthlyRent := 100 }).netOperatingIncome
        < (computeDealMetrics
          { simpleParams with operatingExpenseRatio := 1, avgMonthlyRent := 200 }).netOperatingIncome) := by
  refine ⟨?_, ?_, by norm_num [simpleParams], ?_⟩
  · refine ⟨?_, ?_, ?_, ?_, ?_, ?_, ?_, ?_, ?_, ?_, ?_, ?_, ?_, ?_⟩ <;>
      norm_num [ValidParams, simpleParams]
  · refine ⟨?_, ?_, ?_, ?_, ?_, ?_, ?_, ?_, ?_, ?_, ?_, ?_, ?_, ?_⟩ <;>
      norm_num [ValidParams, simpleParams]
  · norm_num [computeDealMetrics, netOperatingIncome, effectiveGrossIncome,
      operatingExpenses, grossPotentialRent, vacancyLoss, simpleParams]

/-- C9 (amended): holding every other field constant, a strictly larger
`avgMonthlyRent` strictly increases the year-1 NOI provided the deal has at
least one unit and `operatingExpenseRatio < 1` (at the admitted boundary
value 1 the NOI is identically zero). -/
theorem noi_strict_mono_in_rent (p : DealParameters) (r s : ℚ)
    (hU : 0 < p.totalUnits) (hoe : p.operatingExpenseRatio < 1) (hrs : r < s) :
    (computeDealMetrics { p with avgMonthlyRent := r }).netOperatingIncome
      < (computeDealMetrics { p with avgMonthlyRent := s }).netOperatingIncome := by
  show netOperatingIncome _ < netOperatingIncome _
  simp only [netOperatingIncome, effectiveGrossIncome, operatingExpenses,
    grossPotentialRent, vacancyLoss]
  have h1 : (0 : ℚ) < 1 - p.operatingExpenseRatio := by linarith
  nlinarith [mul_pos (mul_pos hU h1) (sub_pos.mpr hrs)]

/-- Witness for C9 (amended) at the spec scenario, rents 1200 vs 1300. -/
theorem noi_strict_mono_in_rent_witness :
    0 < defaultParams.totalUnits ∧ defaultParams.operatingExpenseRatio < 1 ∧
    (1200 : ℚ) < 1300 ∧
    (computeDealMetrics { defaultParams with avgMonthlyRent := 1200 }).netOperatingIncome
      < (computeDealMetrics { defaultParams with avgMonthlyRent := 1300 }).netOperatingIncome :=
  ⟨by norm_num [defaultParams], by norm_num [defaultParams], by norm_num,
    noi_strict_mono_in_rent defaultParams 1200 1300 (by norm_num [defaultParams])
      (by norm_num [defaultParams]) (by norm_num)⟩

/-- C10: the metrics computation is a total function on arbitrary inputs —
the embedding returns a `DealMetrics` record for every parameter record,
the cash-flow schedule always has exactly `holdingPeriod` entries (empty
when `holdingPeriod = 0`), and at a thoroughly invalid input (negative
price, zero units, zero term, zero exit cap, zero hold) the computation
still proceeds through every field, reaching the unguarded
`exitNOI / exitCapRate` division with a zero divisor (`NaN`/`Infinity` in
JavaScript) instead of raising an error; the IRR iteration is bounded by
the fuel constant `irrMaxIter = 1000`. -/
theorem metrics_total_no_validation :
    (∀ p : DealParameters,
      ((computeDealMetrics p).annualCashFlows).length = p.holdingPeriod) ∧
    (computeDealMetrics degenParams).annualCashFlows = [] ∧
    (computeDealMetrics degenParams).totalProjectCost = -1 ∧
    degenParams.exitCapRate = 0 ∧
    (computeDealMetrics degenParams).salePrice
      = exitNOI degenParams / degenParams.exitCapRate ∧
    irrMaxIter = 1000 := by
  refine ⟨fun p => annualCashFlows_length p, rfl, ?_, rfl, rfl, rfl⟩
  norm_num [computeDealMetrics, totalProjectCost, degenParams]

end Aequitas
